import Mathlib

/-!
Verification of the Inventory-Sales-Tracker application (`app.py`).

The application is a Flask front end over a SQLite database with two tables,
`products` and `sales`.  We embed the database state as two Lean lists and
translate each route handler into a pure state-transforming function:

* `process_sale`     — the sale transaction (route `/process_sale`);
* `add_product`      — product creation (route `/add_product`, POST branch);
* `delete_product`   — product deletion (route `/delete/<id>`);
* `toggle_watchlist` — the watch-flag toggle (route `/toggle_watchlist/<id>`);
* `total_revenue`, `total_value`, `total_orders` — the metrics queries of the
  `/visualization` route.

SQLite conventions reflected in the embedding: `fetchone` on a `SELECT ... WHERE
id = ?` returns the first matching row (`List.find?`); `UPDATE ... WHERE id = ?`
rewrites every matching row; `INSERT` appends a row at the end; `REAL` values
are modelled exactly as rationals; an `INSERT` violating the `UNIQUE` constraint
on `products.name` raises `sqlite3.IntegrityError`, which the handlers catch.
Flash messages / JSON error responses are modelled as error values returned next
to the (unchanged) state; the row-id assignment of `INTEGER PRIMARY KEY` is
modelled by the counters `nextProductId` / `nextSaleId`.
-/

/-- A row of the `products` table (`init_db`, lines 33-43 of `app.py`).
`price` is a SQLite `REAL`, modelled exactly as a rational; `is_watched` is an
`INTEGER DEFAULT 0` column, so it is an integer, not a `Bool`. -/
structure Product where
  id : Nat
  name : String
  price : Rat
  stock : Int
  low_stock_threshold : Int
  image_url : String
  is_watched : Int
deriving DecidableEq

/-- A row of the `sales` table (`init_db`, lines 44-52 of `app.py`). -/
structure Sale where
  id : Nat
  product_id : Nat
  quantity : Int
  sale_date : String
deriving DecidableEq

/-- The database state: the two tables in row order, plus the next row ids
assigned by the `INTEGER PRIMARY KEY` columns. -/
structure DBState where
  products : List Product
  sales : List Sale
  nextProductId : Nat
  nextSaleId : Nat
deriving DecidableEq

/-- The failure outcomes of `process_sale`, one per flash-message path:
`invalidQuantity` for a quantity that does not parse or is not positive,
`productNotFound` for a missing product id, and `insufficientStock` (which
carries the current stock shown in the flash message) for an oversized sale. -/
inductive SaleError where
  | invalidQuantity
  | productNotFound
  | insufficientStock (current_stock : Int)
deriving DecidableEq

/-- The `/process_sale` handler (lines 152-204 of `app.py`).  The form value
`quantity` arrives through `int(request.form.get('quantity'))`; we take the
parse outcome as input (`none` when `int(...)` raised).  Every failure path
rolls back having written nothing, so it returns the state unchanged together
with the error; success returns the committed state.  `sale_date` is the
timestamp string produced by `datetime.datetime.now().strftime(...)`. -/
def process_sale (st : DBState) (product_id : Nat) (quantityIn : Option Int)
    (sale_date : String) : DBState × Option SaleError :=
  match quantityIn with
  | none => (st, some SaleError.invalidQuantity)
  | some quantity =>
    if quantity ≤ 0 then (st, some SaleError.invalidQuantity)
    else
      match st.products.find? (fun p => p.id == product_id) with
      | none => (st, some SaleError.productNotFound)
      | some product =>
        if product.stock < quantity then
          (st, some (SaleError.insufficientStock product.stock))
        else
          ({ st with
              products := st.products.map (fun p =>
                if p.id == product_id then { p with stock := product.stock - quantity } else p),
              sales := st.sales ++
                [{ id := st.nextSaleId, product_id := product_id,
                   quantity := quantity, sale_date := sale_date }],
              nextSaleId := st.nextSaleId + 1 },
           none)

/-- The stock of the product with the given id, as the sale handler reads it
(`SELECT stock FROM products WHERE id = ?` followed by `fetchone`). -/
def getStock (st : DBState) (product_id : Nat) : Option Int :=
  (st.products.find? (fun p => p.id == product_id)).map Product.stock

/-- Every product row has non-negative stock. -/
def stocksNonneg (st : DBState) : Prop :=
  ∀ p ∈ st.products, 0 ≤ p.stock

instance (st : DBState) : Decidable (stocksNonneg st) :=
  inferInstanceAs (Decidable (∀ p ∈ st.products, 0 ≤ p.stock))

/-- Run a sequence of sale requests, each given as
(product id, parsed quantity, timestamp). -/
def run_sales (st : DBState) (ops : List (Nat × Option Int × String)) : DBState :=
  ops.foldl (fun s op => (process_sale s op.1 op.2.1 op.2.2).1) st

/-- The allow-list of image extensions (`ALLOWED_EXTENSIONS`, line 16). -/
def ALLOWED_EXTENSIONS : List String := ["png", "jpg", "jpeg", "gif"]

/-- The characters after the last dot: `filename.rsplit('.', 1)[1]` of the
character list. -/
def afterLastDot (cs : List Char) : List Char :=
  (cs.reverse.takeWhile (fun c => c != '.')).reverse

/-- `allowed_file` (lines 18-21): the filename contains a dot and the part
after the last dot (`filename.rsplit('.', 1)[1]`), lowercased, is an allowed
extension. -/
def allowed_file (filename : String) : Bool :=
  filename.data.contains '.' &&
    ALLOWED_EXTENSIONS.contains (String.mk ((afterLastDot filename.data).map Char.toLower))

/-- The outcome of reading one numeric form field in `add_product`:
`absent` models a missing or empty (falsy) field, `malformed` a field on which
`float(...)` / `int(...)` raised, and `parsed a` a successful parse. -/
inductive FormNumber (α : Type) where
  | absent
  | malformed
  | parsed (a : α)
deriving DecidableEq

/-- `x = float(form.get(f)) if form.get(f) else dflt` (lines 103-105): an
absent or empty field silently takes the default, a malformed one raises
(propagated here as `none`). -/
def readNumber {α : Type} (f : FormNumber α) (dflt : α) : Option α :=
  match f with
  | FormNumber.absent => some dflt
  | FormNumber.malformed => none
  | FormNumber.parsed a => some a

/-- The failure outcomes of `add_product`, one per flash-message path. -/
inductive AddError where
  | numberFormat
  | fileTypeNotAllowed
  | validationFailed
  | duplicateName
deriving DecidableEq

/-- The POST form consumed by `add_product`.  `name` and `image_url_online`
are `request.form.get` results (`none` when absent); `image_file` is the
filename of the uploaded file when the request carries an `image_file` part
(`none` when it does not). -/
structure AddProductForm where
  name : Option String
  image_url_online : Option String
  price : FormNumber Rat
  stock : FormNumber Int
  threshold : FormNumber Int
  image_file : Option String
deriving DecidableEq

/-- The image-upload block of `add_product` (lines 99-120): start from the
online URL (defaulted to `''`), replace it with the secured filename when a
non-empty upload with an allowed extension is present, and reject a non-empty
upload with a disallowed extension.  `sf` is the external
`werkzeug.utils.secure_filename` collaborator. -/
def resolve_image (sf : String → String) (form : AddProductForm) :
    Except AddError String :=
  let image_url := form.image_url_online.getD ""
  match form.image_file with
  | none => Except.ok image_url
  | some fn =>
    if fn != "" && allowed_file fn then Except.ok (sf fn)
    else if fn != "" && !(allowed_file fn) then Except.error AddError.fileTypeNotAllowed
    else Except.ok image_url

/-- The POST branch of the `/add_product` handler (lines 95-138).  Steps in
source order: parse the numeric fields (defaults 0, 0, 1), run the image-upload
block, validate (`not name or price <= 0 or stock < 0 or threshold <= 0`), and
insert; the `UNIQUE` constraint on `name` turns a duplicate into an
`IntegrityError`, caught and flashed.  Every failure path leaves the state
unchanged; success appends one row with `is_watched` at its default 0. -/
def add_product (sf : String → String) (st : DBState) (form : AddProductForm) :
    DBState × Option AddError :=
  match readNumber form.price 0, readNumber form.stock 0, readNumber form.threshold 1 with
  | some price, some stock, some threshold =>
    match resolve_image sf form with
    | Except.error e => (st, some e)
    | Except.ok image_url =>
      let name := form.name.getD ""
      if name = "" ∨ price ≤ 0 ∨ stock < 0 ∨ threshold ≤ 0 then
        (st, some AddError.validationFailed)
      else if st.products.any (fun p => p.name == name) then
        (st, some AddError.duplicateName)
      else
        ({ st with
            products := st.products ++
              [{ id := st.nextProductId, name := name, price := price, stock := stock,
                 low_stock_threshold := threshold, image_url := image_url, is_watched := 0 }],
            nextProductId := st.nextProductId + 1 },
         none)
  | _, _, _ => (st, some AddError.numberFormat)

/-- The `/delete/<id>` handler (lines 142-150): `DELETE FROM products WHERE
id = ?`, unconditionally, touching nothing else. -/
def delete_product (st : DBState) (product_id : Nat) : DBState :=
  { st with products := st.products.filter (fun p => !(p.id == product_id)) }

/-- Failure outcome of `toggle_watchlist`: the 404 JSON response
`Product not found`. -/
inductive ToggleError where
  | productNotFound
deriving DecidableEq

/-- The `/toggle_watchlist/<id>` handler (lines 207-227): read `is_watched` of
the product (404 when missing), compute `1 if current == 0 else 0`, write it
back, and return the new status in the JSON payload. -/
def toggle_watchlist (st : DBState) (product_id : Nat) :
    DBState × Except ToggleError Int :=
  match st.products.find? (fun p => p.id == product_id) with
  | none => (st, Except.error ToggleError.productNotFound)
  | some current_status =>
    let new_status : Int := if current_status.is_watched = 0 then 1 else 0
    ({ st with
        products := st.products.map (fun p =>
          if p.id == product_id then { p with is_watched := new_status } else p) },
     Except.ok new_status)

/-- The `is_watched` value of the product with the given id, as the toggle
handler reads it (`SELECT is_watched FROM products WHERE id = ?`, `fetchone`). -/
def getWatched (st : DBState) (product_id : Nat) : Option Int :=
  (st.products.find? (fun p => p.id == product_id)).map Product.is_watched

/-- `SELECT SUM(stock * price) FROM products`, with SQL `SUM` of no rows
coalesced to 0 by the `or 0.0` (lines 83 and 236). -/
def total_value (st : DBState) : Rat :=
  (st.products.map (fun p => (p.stock : Rat) * p.price)).sum

/-- `SELECT COUNT(id) AS count FROM sales` (line 239). -/
def total_orders (st : DBState) : Nat :=
  st.sales.length

/-- The revenue query of `/visualization` (lines 254-259):
`SELECT SUM(s.quantity * p.price) FROM sales s JOIN products p ON
s.product_id = p.id`, with the empty sum coalesced to 0 by the `or 0.0`.
The inner join pairs each sale with every product row whose id matches. -/
def total_revenue (st : DBState) : Rat :=
  (st.sales.map (fun s =>
    ((st.products.filter (fun p => p.id == s.product_id)).map
      (fun p => (s.quantity : Rat) * p.price)).sum)).sum

/-- Specification-side restatement of the revenue metric, following §4.4 of
the spec: the sum over all Sale rows of `quantity * price` of the associated
product at query time; a sale whose product id no longer exists in the
products table has no associated product and contributes no term. -/
def spec_total_revenue (st : DBState) : Rat :=
  (st.sales.map (fun s =>
    match st.products.find? (fun p => p.id == s.product_id) with
    | some p => (s.quantity : Rat) * p.price
    | none => 0)).sum

/-- The three rows inserted by `init_db` (lines 56-61), ids assigned 1-3 by
`INTEGER PRIMARY KEY`. -/
def initial_products : List Product :=
  [{ id := 1, name := "Shampoo", price := 15, stock := 200,
     low_stock_threshold := 20, image_url := "shampoo.png", is_watched := 0 },
   { id := 2, name := "Water Bottle", price := 5, stock := 500,
     low_stock_threshold := 20, image_url := "water_bottle.png", is_watched := 1 },
   { id := 3, name := "Energy Bar", price := 5 / 2, stock := 80,
     low_stock_threshold := 5, image_url := "energy_bar.png", is_watched := 0 }]

/-- The freshly initialised database. -/
def init_state : DBState :=
  { products := initial_products, sales := [], nextProductId := 4, nextSaleId := 1 }

/-! ### Helper lemmas -/

/-- Rewriting every row whose id matches, with an id-preserving row function,
commutes with looking up the first row with that id. -/
theorem find_map_update (l : List Product) (pid : Nat) (f : Product → Product)
    (hf : ∀ p, (f p).id = p.id) :
    (l.map (fun p => if p.id == pid then f p else p)).find? (fun p => p.id == pid)
      = (l.find? (fun p => p.id == pid)).map f := by
  induction l with
  | nil => rfl
  | cons a l ih =>
    simp only [List.map_cons]
    by_cases hc : a.id = pid
    · have hb : (a.id == pid) = true := by simp [hc]
      rw [if_pos hb]
      rw [List.find?_cons_of_pos _ (by simp [hf, hc]),
          List.find?_cons_of_pos _ (by simp [hc])]
      rfl
    · have hb : (a.id == pid) = false := by simp [hc]
      rw [if_neg (by simp [hc])]
      rw [List.find?_cons_of_neg _ (by simp [hc]), List.find?_cons_of_neg _ (by simp [hc])]
      exact ih

/-- A row whose id differs from the rewritten id survives the rewrite
unchanged. -/
theorem mem_map_update_of_ne (l : List Product) (pid : Nat) (f : Product → Product)
    (p : Product) (hp : p ∈ l) (hne : p.id ≠ pid) :
    p ∈ l.map (fun q => if q.id == pid then f q else q) := by
  refine List.mem_map.2 ⟨p, hp, ?_⟩
  simp [hne]

/-- One sale request leaves every stock non-negative when all stocks were
non-negative before. -/
theorem process_sale_preserves_nonneg (st : DBState) (pid : Nat)
    (qin : Option Int) (d : String) (h : stocksNonneg st) :
    stocksNonneg (process_sale st pid qin d).1 := by
  cases qin with
  | none => exact h
  | some q =>
    by_cases hq : q ≤ 0
    · simpa [process_sale, hq] using h
    · rcases hfind : st.products.find? (fun p => p.id == pid) with _ | product
      · simpa [process_sale, hq, hfind] using h
      · by_cases hs : product.stock < q
        · simpa [process_sale, hq, hfind, hs] using h
        · have hmain : (process_sale st pid (some q) d).1
              = { st with
                  products := st.products.map (fun p =>
                    if p.id == pid then { p with stock := product.stock - q } else p),
                  sales := st.sales ++
                    [{ id := st.nextSaleId, product_id := pid,
                       quantity := q, sale_date := d }],
                  nextSaleId := st.nextSaleId + 1 } := by
            simp [process_sale, hq, hfind, hs]
          rw [hmain]
          intro r hr
          rcases List.mem_map.1 hr with ⟨p, hp, hpr⟩
          by_cases hid : p.id = pid
          · have hr2 : r = { p with stock := product.stock - q } := by
              simpa [hid] using hpr.symm
            subst hr2
            simp only
            omega
          · have hr2 : r = p := by simpa [hid] using hpr.symm
            subst hr2
            exact h _ hp

/-- Any sequence of sale requests leaves every stock non-negative. -/
theorem run_sales_preserves_nonneg (ops : List (Nat × Option Int × String))
    (st : DBState) (h : stocksNonneg st) :
    stocksNonneg (run_sales st ops) := by
  induction ops generalizing st with
  | nil => exact h
  | cons op ops ih =>
    exact ih _ (process_sale_preserves_nonneg st op.1 op.2.1 op.2.2 h)

/-! ### Claim theorems -/

/-- C1: For every sequence of sale operations, a product's stock never becomes
negative, and whenever `process_sale` is invoked with a quantity greater than
the product's current stock, the sale is rejected with the insufficient-stock
error carrying the current stock value and the state (hence the product's
stock) is unchanged. -/
theorem stock_never_negative (st : DBState) (h : stocksNonneg st) :
    (∀ ops, stocksNonneg (run_sales st ops)) ∧
    (∀ pid q d s, getStock st pid = some s → s < q →
      process_sale st pid (some q) d = (st, some (SaleError.insufficientStock s))) := by
  constructor
  · intro ops
    exact run_sales_preserves_nonneg ops st h
  · intro pid q d s hget hlt
    simp only [getStock] at hget
    rcases Option.map_eq_some'.1 hget with ⟨p, hfind, hstock⟩
    have hmem := List.mem_of_find?_eq_some hfind
    have hnn : 0 ≤ s := hstock ▸ h p hmem
    have hq : ¬ q ≤ 0 := by omega
    have hs : p.stock < q := by omega
    simp [process_sale, hq, hfind, hs, hstock, hlt]

/-- Witness for `stock_never_negative`: from the freshly initialised database,
two sales of 150 units of product 1 leave all stocks non-negative; a sale of
300 units of product 1 (stock 200) is rejected with the error carrying 200 and
an unchanged state. -/
theorem stock_never_negative_witness :
    stocksNonneg (run_sales init_state
      [(1, some 150, "2026-01-01 00:00:00"), (1, some 150, "2026-01-02 00:00:00")]) ∧
    process_sale init_state 1 (some 300) "2026-01-03 00:00:00"
      = (init_state, some (SaleError.insufficientStock 200)) :=
  ⟨(stock_never_negative init_state (by decide)).1 _,
   (stock_never_negative init_state (by decide)).2 1 300 "2026-01-03 00:00:00" 200
     (by decide) (by decide)⟩

/-- C2: sale atomicity.  A successful `process_sale` appends exactly one new
Sale row, carrying the requested product id and quantity, decreases that
product's stock by exactly the quantity, and keeps every other product row;
a failed `process_sale` leaves the whole state (sales and all stocks)
unchanged. -/
theorem process_sale_atomic (st : DBState) (pid : Nat) (q : Int) (d : String) :
    (∀ st1, process_sale st pid (some q) d = (st1, none) →
      st1.sales = st.sales ++
        [{ id := st.nextSaleId, product_id := pid, quantity := q, sale_date := d }] ∧
      (∃ s, getStock st pid = some s ∧ getStock st1 pid = some (s - q)) ∧
      ∀ p ∈ st.products, p.id ≠ pid → p ∈ st1.products) ∧
    (∀ st1 e, process_sale st pid (some q) d = (st1, some e) → st1 = st) := by
  constructor
  · intro st1 hok
    by_cases hq : q ≤ 0
    · simp [process_sale, hq] at hok
    · rcases hfind : st.products.find? (fun p => p.id == pid) with _ | product
      · simp [process_sale, hq, hfind] at hok
      · by_cases hs : product.stock < q
        · simp [process_sale, hq, hfind, hs] at hok
        · have hok2 : st1 = { st with
              products := st.products.map (fun p =>
                if p.id == pid then { p with stock := product.stock - q } else p),
              sales := st.sales ++
                [{ id := st.nextSaleId, product_id := pid,
                   quantity := q, sale_date := d }],
              nextSaleId := st.nextSaleId + 1 } := by
            have h1 : (process_sale st pid (some q) d).1 = st1 := by rw [hok]
            rw [← h1]
            simp [process_sale, hq, hfind, hs]
          subst hok2
          refine ⟨rfl, ⟨product.stock, ?_, ?_⟩, ?_⟩
          · simp [getStock, hfind]
          · simp only [getStock]
            rw [find_map_update st.products pid
              (fun p => { p with stock := product.stock - q }) (fun p => rfl)]
            simp [hfind]
          · intro p hp hne
            exact mem_map_update_of_ne _ _ _ p hp hne
  · intro st1 e herr
    by_cases hq : q ≤ 0
    · simp [process_sale, hq, Prod.mk.injEq] at herr
      exact herr.1.symm
    · rcases hfind : st.products.find? (fun p => p.id == pid) with _ | product
      · simp [process_sale, hq, hfind, Prod.mk.injEq] at herr
        exact herr.1.symm
      · by_cases hs : product.stock < q
        · simp [process_sale, hq, hfind, hs, Prod.mk.injEq] at herr
          exact herr.1.symm
        · simp [process_sale, hq, hfind, hs, Prod.mk.injEq] at herr

/-- Witness for `process_sale_atomic`: on the fresh database, selling 4 units
of product 1 appends exactly the one expected Sale row, and an oversized sale
of 300 units leaves the state unchanged. -/
theorem process_sale_atomic_witness :
    (process_sale init_state 1 (some 4) "2026-01-01 00:00:00").1.sales
      = init_state.sales ++
        [{ id := 1, product_id := 1, quantity := 4, sale_date := "2026-01-01 00:00:00" }] ∧
    (process_sale init_state 1 (some 300) "2026-01-01 00:00:00").1 = init_state :=
  ⟨((process_sale_atomic init_state 1 4 "2026-01-01 00:00:00").1 _ rfl).1,
   (process_sale_atomic init_state 1 300 "2026-01-01 00:00:00").2 _
     (SaleError.insufficientStock 200) rfl⟩

/-- C4: input validation of `process_sale`.  A quantity that does not parse or
is not positive fails with the invalid-quantity error, and a positive quantity
against a nonexistent product id fails with the product-not-found error; in
both cases the storage state is returned unchanged. -/
theorem sale_input_validation (st : DBState) (pid : Nat) (d : String) :
    (∀ qin : Option Int, (qin = none ∨ ∃ q, qin = some q ∧ q ≤ 0) →
      process_sale st pid qin d = (st, some SaleError.invalidQuantity)) ∧
    (∀ q : Int, 0 < q → getStock st pid = none →
      process_sale st pid (some q) d = (st, some SaleError.productNotFound)) := by
  constructor
  · rintro qin (rfl | ⟨q, rfl, hq⟩)
    · rfl
    · simp [process_sale, hq]
  · intro q hq hnone
    have hfind : st.products.find? (fun p => p.id == pid) = none := by
      simpa [getStock] using hnone
    have hq2 : ¬ q ≤ 0 := by omega
    simp [process_sale, hq2, hfind]

/-- Witness for `sale_input_validation`: on the fresh database, a failed parse,
a zero quantity, and an unknown product id 99 each produce the corresponding
error and an unchanged state. -/
theorem sale_input_validation_witness :
    process_sale init_state 1 none "2026-01-01 00:00:00"
      = (init_state, some SaleError.invalidQuantity) ∧
    process_sale init_state 1 (some 0) "2026-01-01 00:00:00"
      = (init_state, some SaleError.invalidQuantity) ∧
    process_sale init_state 99 (some 1) "2026-01-01 00:00:00"
      = (init_state, some SaleError.productNotFound) :=
  ⟨(sale_input_validation init_state 1 "2026-01-01 00:00:00").1 none (Or.inl rfl),
   (sale_input_validation init_state 1 "2026-01-01 00:00:00").1 (some 0)
     (Or.inr ⟨0, rfl, by decide⟩),
   (sale_input_validation init_state 99 "2026-01-01 00:00:00").2 1 (by decide) (by decide)⟩

/-- When product ids are pairwise distinct, summing a function over the rows
matching an id reduces to its value on the first (unique) match. -/
theorem filter_sum_eq_find (l : List Product) (pid : Nat) (f : Product → Rat)
    (h : (l.map Product.id).Nodup) :
    ((l.filter (fun p => p.id == pid)).map f).sum
      = match l.find? (fun p => p.id == pid) with
        | some p => f p
        | none => 0 := by
  induction l with
  | nil => rfl
  | cons a l ih =>
    simp only [List.map_cons, List.nodup_cons] at h
    by_cases hc : a.id = pid
    · rw [List.filter_cons_of_pos (by simp [hc]), List.find?_cons_of_pos _ (by simp [hc])]
      have hnil : l.filter (fun p => p.id == pid) = [] := by
        rw [List.filter_eq_nil_iff]
        intro p hp hpe
        exact h.1 (by
          have : p.id = a.id := by
            have := hpe
            simp only [beq_iff_eq] at this
            omega
          exact this ▸ List.mem_map_of_mem Product.id hp)
      simp [hnil]
    · rw [List.filter_cons_of_neg (by simp [hc]), List.find?_cons_of_neg _ (by simp [hc])]
      exact ih h.2

/-- C3: on every storage state whose product ids are distinct (as the
`INTEGER PRIMARY KEY` column guarantees), the revenue reported by the
visualization page equals the sum over all Sale rows of quantity times the
current price of the associated product, where a Sale row whose product id no
longer exists in the products table has no associated product and contributes
no term. -/
theorem revenue_matches_spec (st : DBState)
    (h : (st.products.map Product.id).Nodup) :
    total_revenue st = spec_total_revenue st := by
  unfold total_revenue spec_total_revenue
  congr 1
  apply List.map_congr_left
  intro s _
  exact filter_sum_eq_find st.products s.product_id _ h

/-- Witness for `revenue_matches_spec`: a state holding the `Widget` product
and two Sale rows, one of which references the deleted product id 99. -/
theorem revenue_matches_spec_witness :
    ((DBState.mk
        [{ id := 1, name := "Widget", price := 2, stock := 6,
           low_stock_threshold := 5, image_url := "", is_watched := 0 }]
        [{ id := 1, product_id := 1, quantity := 4, sale_date := "2026-01-01 00:00:00" },
         { id := 2, product_id := 99, quantity := 7, sale_date := "2026-01-02 00:00:00" }]
        2 3).products.map Product.id).Nodup ∧
    total_revenue (DBState.mk
        [{ id := 1, name := "Widget", price := 2, stock := 6,
           low_stock_threshold := 5, image_url := "", is_watched := 0 }]
        [{ id := 1, product_id := 1, quantity := 4, sale_date := "2026-01-01 00:00:00" },
         { id := 2, product_id := 99, quantity := 7, sale_date := "2026-01-02 00:00:00" }]
        2 3)
      = spec_total_revenue (DBState.mk
        [{ id := 1, name := "Widget", price := 2, stock := 6,
           low_stock_threshold := 5, image_url := "", is_watched := 0 }]
        [{ id := 1, product_id := 1, quantity := 4, sale_date := "2026-01-01 00:00:00" },
         { id := 2, product_id := 99, quantity := 7, sale_date := "2026-01-02 00:00:00" }]
        2 3) :=
  ⟨by decide, revenue_matches_spec _ (by decide)⟩

/-- C5: creating a product whose name equals (case-sensitively) the name of an
existing product — with otherwise well-formed input, so that the request
reaches the insert — fails with the duplicate-name error and leaves the
products table (the whole state) unchanged. -/
theorem add_duplicate_name_rejected (sf : String → String) (st : DBState)
    (form : AddProductForm) (n : String)
    (hname : form.name = some n) (hn : n ≠ "")
    (hprice : ∃ pr, readNumber form.price 0 = some pr ∧ 0 < pr)
    (hstock : ∃ s, readNumber form.stock 0 = some s ∧ 0 ≤ s)
    (hthr : ∃ t, readNumber form.threshold 1 = some t ∧ 0 < t)
    (himg : ∃ u, resolve_image sf form = Except.ok u)
    (hdup : ∃ p ∈ st.products, p.name = n) :
    add_product sf st form = (st, some AddError.duplicateName) := by
  rcases hprice with ⟨pr, hpr, hprpos⟩
  rcases hstock with ⟨s, hs, hsnn⟩
  rcases hthr with ⟨t, ht, htpos⟩
  rcases himg with ⟨u, hu⟩
  have hany : st.products.any (fun p => p.name == n) = true := by
    rcases hdup with ⟨p, hp, hpn⟩
    exact List.any_eq_true.2 ⟨p, hp, by simp [hpn]⟩
  have hval : ¬ (n = "" ∨ pr ≤ 0 ∨ s < 0 ∨ t ≤ 0) := by
    push_neg
    exact ⟨hn, hprpos, hsnn, htpos⟩
  simp [add_product, hpr, hs, ht, hu, hname, hval, hany]

/-- Witness for `add_duplicate_name_rejected`: re-creating `Shampoo` on the
fresh database is rejected with the duplicate-name error, state unchanged. -/
theorem add_duplicate_name_rejected_witness :
    add_product id init_state
      { name := some "Shampoo", image_url_online := some "other.png",
        price := FormNumber.parsed 3, stock := FormNumber.parsed 10,
        threshold := FormNumber.parsed 2, image_file := none }
      = (init_state, some AddError.duplicateName) :=
  add_duplicate_name_rejected id init_state _ "Shampoo" rfl (by decide)
    ⟨3, rfl, by decide⟩ ⟨10, rfl, by decide⟩ ⟨2, rfl, by decide⟩
    ⟨"other.png", rfl⟩ (by simp [init_state, initial_products])

/-- C7: deletion removes exactly the rows whose id matches, keeps every Sale
row (including those referencing the deleted product), and is silently
idempotent — deleting an id with no matching product returns the state
unchanged. -/
theorem delete_product_spec (st : DBState) (pid : Nat) :
    (delete_product st pid).sales = st.sales ∧
    (∀ p : Product, p ∈ (delete_product st pid).products ↔
      p ∈ st.products ∧ p.id ≠ pid) ∧
    ((∀ p ∈ st.products, p.id ≠ pid) → delete_product st pid = st) := by
  refine ⟨rfl, ?_, ?_⟩
  · intro p
    simp [delete_product, List.mem_filter]
  · intro habs
    unfold delete_product
    have hsame : st.products.filter (fun p => !(p.id == pid)) = st.products := by
      apply List.filter_eq_self.2
      intro p hp
      simp [habs p hp]
    rw [hsame]

/-- Witness for `delete_product_spec`: deleting product 2 keeps the sales
table, and deleting the absent id 99 returns the fresh database unchanged. -/
theorem delete_product_spec_witness :
    (delete_product init_state 2).sales = init_state.sales ∧
    delete_product init_state 99 = init_state :=
  ⟨(delete_product_spec init_state 2).1,
   (delete_product_spec init_state 99).2.2 (by decide)⟩

/-- Unfolding `toggle_watchlist` on a state whose lookup finds the row `p`. -/
theorem toggle_eq (st : DBState) (pid : Nat) (p : Product)
    (hfind : st.products.find? (fun r => r.id == pid) = some p) :
    toggle_watchlist st pid
      = ({ st with products := st.products.map (fun r =>
            if r.id == pid then
              { r with is_watched := if p.is_watched = 0 then 1 else 0 }
            else r) },
         Except.ok (if p.is_watched = 0 then 1 else 0)) := by
  simp [toggle_watchlist, hfind]

/-- After rewriting the watch flag of every row with the matching id, the
lookup returns the first match with the new flag. -/
theorem find_update_watch (l : List Product) (pid : Nat) (p : Product) (v : Int)
    (hfind : l.find? (fun r => r.id == pid) = some p) :
    (l.map (fun r => if r.id == pid then { r with is_watched := v } else r)).find?
        (fun r => r.id == pid) = some { p with is_watched := v } := by
  rw [find_map_update l pid (fun r => { r with is_watched := v }) (fun r => rfl)]
  rw [hfind]
  rfl

/-- On a successful toggle, the reported value is the flipped flag, storage
holds exactly that value, the first matching row afterwards is the old row with
the new flag, and the sales table is untouched. -/
theorem toggle_success (st : DBState) (pid : Nat) (p : Product)
    (hfind : st.products.find? (fun r => r.id == pid) = some p) (v : Int)
    (hv : v = if p.is_watched = 0 then 1 else 0) :
    (toggle_watchlist st pid).2 = Except.ok v ∧
    getWatched (toggle_watchlist st pid).1 pid = some v ∧
    (toggle_watchlist st pid).1.products.find? (fun r => r.id == pid)
      = some { p with is_watched := v } ∧
    (toggle_watchlist st pid).1.sales = st.sales := by
  subst hv
  rw [toggle_eq st pid p hfind]
  refine ⟨rfl, ?_, ?_, rfl⟩
  · show Option.map Product.is_watched
        ((st.products.map fun r =>
          if r.id == pid then
            { r with is_watched := if p.is_watched = 0 then 1 else 0 }
          else r).find? (fun r => r.id == pid)) = _
    rw [find_update_watch st.products pid p _ hfind]
    rfl
  · show (st.products.map fun r =>
        if r.id == pid then
          { r with is_watched := if p.is_watched = 0 then 1 else 0 }
        else r).find? (fun r => r.id == pid) = _
    exact find_update_watch st.products pid p _ hfind

/-- C6: toggle round-trip.  For an existing product whose watch flag is a
boolean value (0 or 1, as every write of the application keeps it), one toggle
flips the flag, the value returned to the caller equals the value written to
storage, and a second toggle returns flag and reported value to the original;
toggling a nonexistent product fails with the product-not-found response and
changes nothing. -/
theorem toggle_round_trip (st : DBState) (pid : Nat) :
    (∀ w, getWatched st pid = some w → (w = 0 ∨ w = 1) →
      (toggle_watchlist st pid).2 = Except.ok (if w = 0 then 1 else 0) ∧
      getWatched (toggle_watchlist st pid).1 pid = some (if w = 0 then 1 else 0) ∧
      (toggle_watchlist (toggle_watchlist st pid).1 pid).2 = Except.ok w ∧
      getWatched (toggle_watchlist (toggle_watchlist st pid).1 pid).1 pid = some w) ∧
    (getWatched st pid = none →
      toggle_watchlist st pid = (st, Except.error ToggleError.productNotFound)) := by
  constructor
  · intro w hget hw
    simp only [getWatched] at hget
    rcases Option.map_eq_some'.1 hget with ⟨p, hfind, hpw⟩
    obtain ⟨ht1, ht2, ht3, _⟩ := toggle_success st pid p hfind _ rfl
    obtain ⟨hs1, hs2, _, _⟩ :=
      toggle_success (toggle_watchlist st pid).1 pid _ ht3 _ rfl
    have hv1 : (if p.is_watched = 0 then (1 : Int) else 0)
        = (if w = 0 then 1 else 0) := by rw [hpw]
    have hv2 : (if ({ p with
          is_watched := if p.is_watched = 0 then 1 else 0 } : Product).is_watched = 0
        then (1 : Int) else 0) = w := by
      rcases hw with rfl | rfl
      · simp [hpw]
      · rw [hpw]
        norm_num
    refine ⟨?_, ?_, ?_, ?_⟩
    · rw [ht1, hv1]
    · rw [ht2, hv1]
    · rw [hs1, hv2]
    · rw [hs2, hv2]
  · intro hnone
    have hfind : st.products.find? (fun r => r.id == pid) = none := by
      simpa [getWatched] using hnone
    simp [toggle_watchlist, hfind]

/-- Witness for `toggle_round_trip`: product 2 of the fresh database is
watched (flag 1); toggling reports and stores 0, a second toggle restores 1;
toggling the absent id 99 fails with product-not-found and no change. -/
theorem toggle_round_trip_witness :
    ((toggle_watchlist init_state 2).2 = Except.ok (if (1 : Int) = 0 then 1 else 0) ∧
      getWatched (toggle_watchlist init_state 2).1 2
        = some (if (1 : Int) = 0 then 1 else 0) ∧
      (toggle_watchlist (toggle_watchlist init_state 2).1 2).2 = Except.ok 1 ∧
      getWatched (toggle_watchlist (toggle_watchlist init_state 2).1 2).1 2 = some 1) ∧
    toggle_watchlist init_state 99
      = (init_state, Except.error ToggleError.productNotFound) :=
  ⟨(toggle_round_trip init_state 2).1 1 (by decide) (Or.inr rfl),
   (toggle_round_trip init_state 99).2 (by decide)⟩

/-- C10: a successful watchlist toggle writes a flag that is 0 or 1, leaves
the sales table unchanged, and rewrites the products table only at the
`is_watched` field of the rows with the targeted id, keeping every other field
and every other row identical. -/
theorem toggle_watchlist_frame (st : DBState) (pid : Nat) :
    ∀ st1 v, toggle_watchlist st pid = (st1, Except.ok v) →
      (v = 0 ∨ v = 1) ∧ st1.sales = st.sales ∧
      st1.products = st.products.map (fun p =>
        if p.id == pid then { p with is_watched := v } else p) := by
  intro st1 v h
  rcases hfind : st.products.find? (fun r => r.id == pid) with _ | p
  · simp [toggle_watchlist, hfind] at h
  · rw [toggle_eq st pid p hfind] at h
    have h1 := congrArg Prod.fst h
    have h2 := congrArg Prod.snd h
    simp only at h1 h2
    have h3 : (if p.is_watched = 0 then (1 : Int) else 0) = v := by
      simpa using h2
    subst h3
    subst h1
    refine ⟨?_, rfl, rfl⟩
    by_cases hp : p.is_watched = 0
    · simp [hp]
    · simp [hp]

/-- Witness for `toggle_watchlist_frame`: toggling product 1 of the fresh
database writes flag 1, keeps the sales table and rewrites only the
`is_watched` field of row 1. -/
theorem toggle_watchlist_frame_witness :
    ((1 : Int) = 0 ∨ (1 : Int) = 1) ∧
    (toggle_watchlist init_state 1).1.sales = init_state.sales ∧
    (toggle_watchlist init_state 1).1.products = init_state.products.map (fun p =>
      if p.id == 1 then { p with is_watched := 1 } else p) :=
  toggle_watchlist_frame init_state 1 (toggle_watchlist init_state 1).1 1 rfl

/-- C8: a missing or empty threshold form field is silently defaulted to 1
(and missing price and stock fields default to 0), so a creation request that
omits the threshold passes the `threshold > 0` validation and inserts a row
with threshold 1 instead of being rejected as missing input. -/
theorem threshold_defaults (sf : String → String) (st : DBState) (n u : String)
    (pr : Rat) (s : Int) (hn : n ≠ "") (hpr : 0 < pr) (hs : 0 ≤ s)
    (hdup : st.products.any (fun p => p.name == n) = false) :
    readNumber (FormNumber.absent : FormNumber Int) 1 = some 1 ∧
    readNumber (FormNumber.absent : FormNumber Rat) 0 = some 0 ∧
    readNumber (FormNumber.absent : FormNumber Int) 0 = some 0 ∧
    add_product sf st
        { name := some n, image_url_online := some u, price := FormNumber.parsed pr,
          stock := FormNumber.parsed s, threshold := FormNumber.absent,
          image_file := none }
      = ({ st with
            products := st.products ++
              [{ id := st.nextProductId, name := n, price := pr, stock := s,
                 low_stock_threshold := 1, image_url := u, is_watched := 0 }],
            nextProductId := st.nextProductId + 1 }, none) := by
  refine ⟨rfl, rfl, rfl, ?_⟩
  simp [add_product, resolve_image, readNumber, hn, not_le.mpr hpr,
    not_lt.mpr hs, hdup]

/-- Witness for `threshold_defaults`: creating `Widget` with no threshold
field succeeds on the fresh database and stores threshold 1. -/
theorem threshold_defaults_witness :
    add_product id init_state
        { name := some "Widget", image_url_online := some "widget.png",
          price := FormNumber.parsed 2, stock := FormNumber.parsed 10,
          threshold := FormNumber.absent, image_file := none }
      = ({ init_state with
            products := init_state.products ++
              [{ id := 4, name := "Widget", price := 2, stock := 10,
                 low_stock_threshold := 1, image_url := "widget.png",
                 is_watched := 0 }],
            nextProductId := 5 }, none) :=
  (threshold_defaults id init_state "Widget" "widget.png" 2 10 (by decide)
    (by norm_num) (by norm_num) (by decide)).2.2.2

/-- C9: when product creation carries both an uploaded image file (non-empty
filename with an allowed extension) and an online URL string, the stored image
reference is the secured filename of the upload, not the URL; the URL is
stored only when no file part is present or its filename is empty. -/
theorem image_file_priority (sf : String → String) (st : DBState)
    (n u fn : String) (pr : Rat) (s t : Int)
    (hn : n ≠ "") (hpr : 0 < pr) (hs : 0 ≤ s) (ht : 0 < t)
    (hfn : fn ≠ "") (hfa : allowed_file fn = true)
    (hdup : st.products.any (fun p => p.name == n) = false) :
    (add_product sf st
        { name := some n, image_url_online := some u, price := FormNumber.parsed pr,
          stock := FormNumber.parsed s, threshold := FormNumber.parsed t,
          image_file := some fn }
      = ({ st with
            products := st.products ++
              [{ id := st.nextProductId, name := n, price := pr, stock := s,
                 low_stock_threshold := t, image_url := sf fn, is_watched := 0 }],
            nextProductId := st.nextProductId + 1 }, none)) ∧
    (∀ ff : Option String, ff = none ∨ ff = some "" →
      add_product sf st
        { name := some n, image_url_online := some u, price := FormNumber.parsed pr,
          stock := FormNumber.parsed s, threshold := FormNumber.parsed t,
          image_file := ff }
      = ({ st with
            products := st.products ++
              [{ id := st.nextProductId, name := n, price := pr, stock := s,
                 low_stock_threshold := t, image_url := u, is_watched := 0 }],
            nextProductId := st.nextProductId + 1 }, none)) := by
  have hval : ¬ (n = "" ∨ pr ≤ 0 ∨ s < 0 ∨ t ≤ 0) := by
    push_neg
    exact ⟨hn, hpr, hs, ht⟩
  have hfb : (fn != "") = true := by simpa using hfn
  constructor
  · simp [add_product, resolve_image, readNumber, hfb, hfa, hval, hdup]
  · rintro ff (rfl | rfl)
    · simp [add_product, resolve_image, readNumber, hval, hdup]
    · simp [add_product, resolve_image, readNumber, hval, hdup]

/-- Witness for `image_file_priority`: on the fresh database, creating
`Widget` with both the upload `widget.png` and the URL
`http://img/widget.png` stores the (secured) upload filename, while the same
request without a file stores the URL.  The secure-filename collaborator is
instantiated with the identity sanitizer. -/
theorem image_file_priority_witness :
    (add_product id init_state
        { name := some "Widget", image_url_online := some "http://img/widget.png",
          price := FormNumber.parsed 2, stock := FormNumber.parsed 10,
          threshold := FormNumber.parsed 5, image_file := some "widget.png" }
      = ({ init_state with
            products := init_state.products ++
              [{ id := 4, name := "Widget", price := 2, stock := 10,
                 low_stock_threshold := 5, image_url := "widget.png",
                 is_watched := 0 }],
            nextProductId := 5 }, none)) ∧
    (add_product id init_state
        { name := some "Widget", image_url_online := some "http://img/widget.png",
          price := FormNumber.parsed 2, stock := FormNumber.parsed 10,
          threshold := FormNumber.parsed 5, image_file := none }
      = ({ init_state with
            products := init_state.products ++
              [{ id := 4, name := "Widget", price := 2, stock := 10,
                 low_stock_threshold := 5, image_url := "http://img/widget.png",
                 is_watched := 0 }],
            nextProductId := 5 }, none)) := by
  have h := image_file_priority id init_state
    "Widget" "http://img/widget.png" "widget.png" 2 10 5
    (by decide) (by norm_num) (by norm_num) (by norm_num)
    (by decide) (by decide) (by decide)
  exact ⟨h.1, h.2 none (Or.inl rfl)⟩
